import Mathlib

/-!
Verification of the `ebacktrace` crate: a lazily-resolved backtrace cache
(`src/backtrace.rs`) and the macro-generated error wrapper (`src/lib.rs`).

The stateful parts (the `RefCell<InnerMut>` interior mutability and the
`Arc` sharing of one `Backtrace` across clones) are embedded by explicit
state passing: a formatting call takes the current cache state and returns
the produced text together with the updated state.  `Arc<Backtrace>`
handles are embedded as indices into a heap `Nat → Backtrace`.  The
fallible `expect` in `Display for Backtrace` is embedded by an `Option`
result (`none` is the panic path).
-/

/-- Models the external `backtrace::Backtrace` collaborator: an opaque
point-in-time snapshot of call-stack frames (here: a list of frame
addresses) plus the resolution flag toggled by `resolve()`. -/
structure RawBacktrace where
  frames : List Nat
  resolved : Bool
deriving DecidableEq, Repr

/-- Models the external crate's `Backtrace::resolve`: symbol resolution,
which only changes the snapshot's resolution state, not the frames. -/
def RawBacktrace.resolve (b : RawBacktrace) : RawBacktrace :=
  { b with resolved := true }

/-- Models the external crate's `Debug` rendering `format!("{:?}", bt)`:
some concrete injective-enough text derived from the frames. -/
def RawBacktrace.debugFormat (b : RawBacktrace) : String :=
  String.intercalate "\n" (b.frames.map (fun a => "frame " ++ toString a))

/-- `struct InnerMut` from `src/backtrace.rs`: the wrapped raw backtrace
and the optional cached rendering (`string: Option<String>`). -/
structure InnerMut where
  backtrace : RawBacktrace
  string : Option String
deriving DecidableEq, Repr

/-- `pub struct Backtrace` from `src/backtrace.rs`.  The `RefCell` around
`InnerMut` is embedded by passing the state explicitly through the
rendering functions below. -/
structure Backtrace where
  inner : InnerMut
deriving DecidableEq, Repr

/-- Process-wide configuration read by `Backtrace::capture`: the
`force_backtrace` build feature and the `RUST_BACKTRACE` environment
variable (`none` = unset). -/
structure Config where
  forceBacktrace : Bool
  rustBacktrace : Option String
deriving DecidableEq, Repr

/-- `Backtrace::capture` from `src/backtrace.rs` lines 27-51.  With the
`force_backtrace` feature the snapshot is always captured; otherwise
`RUST_BACKTRACE` is read (`unwrap_or_default`, i.e. `""` when unset) and
the snapshot is captured iff it matches `"1" | "true" | "full"`.  The
snapshot is taken with `backtrace::Backtrace::new_unresolved()` and the
cached string starts out absent. -/
def Backtrace.capture (cfg : Config) (snapshot : List Nat) : Option Backtrace :=
  if cfg.forceBacktrace then
    some { inner := { backtrace := { frames := snapshot, resolved := false }, string := none } }
  else
    let rust_backtrace := cfg.rustBacktrace.getD ""
    let capture_backtrace :=
      rust_backtrace == "1" || rust_backtrace == "true" || rust_backtrace == "full"
    if capture_backtrace then
      some { inner := { backtrace := { frames := snapshot, resolved := false }, string := none } }
    else
      none

/-- The conditional resolve-and-cache step shared by `Debug for Backtrace`
(lines 53-74) and `Display for Backtrace` (lines 75-96) of
`src/backtrace.rs`: if no cached string is present yet, resolve the raw
backtrace and store its `Debug` rendering. -/
def Backtrace.resolveStep (b : Backtrace) : Backtrace :=
  let has_backtrace := b.inner.string.isSome
  if has_backtrace then b
  else
    let bt := b.inner.backtrace.resolve
    { inner := { backtrace := bt, string := some bt.debugFormat } }

/-- `Display for Backtrace` (`src/backtrace.rs` lines 75-96): run the
conditional resolve step, then unwrap the cached string with
`expect("Failed to access captured backtrace?!")` and write it.  The
`none` result is the `expect` panic path. -/
def Backtrace.render (b : Backtrace) : Option (String × Backtrace) :=
  let b1 := b.resolveStep
  match b1.inner.string with
  | some str => some (str, b1)
  | none => none

/-- The text `render` serves for a cache state: the cached string after
the conditional resolve step. -/
def Backtrace.renderedText (b : Backtrace) : String :=
  (b.resolveStep).inner.string.getD ""

/-- The store of `Arc<Backtrace>` allocations: a handle (`Nat`) denotes
one shared, reference-counted `Backtrace`. -/
def Heap : Type := Nat → Backtrace

/-- Rendering the shared `Backtrace` behind handle `i`: `Display` runs on
the shared cache, so the cache update is visible through the heap. -/
def Heap.renderAt (h : Heap) (i : Nat) : Option (String × Heap) :=
  ((h i).render).map (fun p => (p.1, Function.update h i p.2))

/-- The error wrapper generated by `define_error!` in `src/lib.rs` lines
62-68: the payload `err`, the description `desc` (a `Cow<'static, str>`,
embedded as `String`, `""` = no description) and the optional shared
trace handle (`Option<Arc<Backtrace>>`, embedded as an optional heap
handle). -/
structure WrappedError (E : Type) where
  err : E
  desc : String
  backtrace : Option Nat
deriving DecidableEq, Repr

/-- `$name::new` (`src/lib.rs` lines 71-78): captures a backtrace, wraps
it in a fresh `Arc` (a fresh heap handle), and attaches no description. -/
def WrappedError.new {E : Type} (cfg : Config) (snapshot : List Nat) (v : E)
    (h : Heap) (fresh : Nat) : WrappedError E × Heap :=
  match Backtrace.capture cfg snapshot with
  | some b => ({ err := v, desc := "", backtrace := some fresh }, Function.update h fresh b)
  | none => ({ err := v, desc := "", backtrace := none }, h)

/-- `$name::with_str` (`src/lib.rs` lines 80-87); `with_string` (lines
89-96) differs only in the `Cow` variant used for the description, which
the `String` embedding does not distinguish. -/
def WrappedError.with_str {E : Type} (cfg : Config) (snapshot : List Nat) (v : E)
    (d : String) (h : Heap) (fresh : Nat) : WrappedError E × Heap :=
  match Backtrace.capture cfg snapshot with
  | some b => ({ err := v, desc := d, backtrace := some fresh }, Function.update h fresh b)
  | none => ({ err := v, desc := d, backtrace := none }, h)

/-- `impl From<E> for $name<E>` (`src/lib.rs` lines 120-124):
`from(error)` is `Self::new(error)`. -/
def WrappedError.fromPayload {E : Type} (cfg : Config) (snapshot : List Nat) (v : E)
    (h : Heap) (fresh : Nat) : WrappedError E × Heap :=
  WrappedError.new cfg snapshot v h fresh

/-- `impl Clone for $name<E>` (`src/lib.rs` lines 193-201): clones `err`
and `desc`, and `Arc`-clones the trace, i.e. copies the handle. -/
def WrappedError.clone {E : Type} (w : WrappedError E) : WrappedError E :=
  { err := w.err, desc := w.desc, backtrace := w.backtrace }

/-- `impl Display for $name<E>` (`src/lib.rs` lines 148-185).  Both the
`derive_display` and the plain variant have the same shape and differ only
in how the payload is rendered; that choice is the parameter `fmtE`.
Writes the payload, then `" ({desc})"` if the description is non-empty,
then — if a trace is present — two newlines, the line `"Backtrace:"`, and
the trace's `Display` rendering (which resolves and caches on first use). -/
def WrappedError.toText {E : Type} (fmtE : E → String) (w : WrappedError E)
    (h : Heap) : Option (String × Heap) :=
  let out := fmtE w.err
  let out := if w.desc = "" then out else out ++ " (" ++ w.desc ++ ")"
  match w.backtrace with
  | none => some (out, h)
  | some i =>
    match Heap.renderAt h i with
    | some p => some (out ++ "\n" ++ "\n" ++ "Backtrace:" ++ "\n" ++ p.1, p.2)
    | none => none

/-! Concrete inputs used by the witness theorems. -/

/-- A payload formatter for witness instances. -/
def fmt0 : Unit → String := fun _ => "E"

/-- A cache state whose rendering is already cached. -/
def btCached : Backtrace :=
  { inner := { backtrace := { frames := [1, 2], resolved := true }, string := some "cached" } }

/-- A freshly captured, unresolved cache state. -/
def btFresh : Backtrace :=
  { inner := { backtrace := { frames := [1, 2], resolved := false }, string := none } }

/-- A heap holding `btFresh` at every handle. -/
def heap0 : Heap := fun _ => btFresh

/-- A wrapped error with a trace handle into `heap0`. -/
def wTraced : WrappedError Unit := { err := (), desc := "", backtrace := some 0 }

/-- A wrapped error with a description and no trace. -/
def wDesc : WrappedError Unit := { err := (), desc := "ctx", backtrace := none }

/-- `heap0` after the trace behind handle `0` has been rendered once. -/
def heap1 : Heap := Function.update heap0 0 (Backtrace.resolveStep btFresh)

/-- A configuration with the `force_backtrace` feature enabled. -/
def cfgForce : Config := { forceBacktrace := true, rustBacktrace := none }

/-- The cache state captured by `Backtrace.capture cfgForce [7]`. -/
def btSeven : Backtrace :=
  { inner := { backtrace := { frames := [7], resolved := false }, string := none } }

/-- The rendering of `wTraced` in `heap0`. -/
def tTraced : String := "E\n\nBacktrace:\nframe 1\nframe 2"

/-! Helper lemmas shared by the claim theorems. -/

theorem Backtrace.resolveStep_of_cached (b : Backtrace) (str : String)
    (hs : b.inner.string = some str) : b.resolveStep = b := by
  unfold Backtrace.resolveStep
  simp [hs]

theorem Backtrace.resolveStep_string_isSome (b : Backtrace) :
    (b.resolveStep).inner.string.isSome := by
  unfold Backtrace.resolveStep
  cases hs : b.inner.string <;> simp [hs]

theorem Backtrace.render_eq (b : Backtrace) :
    b.render = some (b.renderedText, b.resolveStep) := by
  unfold Backtrace.render Backtrace.renderedText
  cases hs : (b.resolveStep).inner.string with
  | none =>
    have := b.resolveStep_string_isSome
    rw [hs] at this
    simp at this
  | some str => simp [hs]

theorem Backtrace.resolveStep_idem (b : Backtrace) :
    (b.resolveStep).resolveStep = b.resolveStep := by
  have h := b.resolveStep_string_isSome
  cases hs : (b.resolveStep).inner.string with
  | none =>
    rw [hs] at h
    simp at h
  | some str => exact Backtrace.resolveStep_of_cached _ str hs

theorem Heap.renderAt_eq (h : Heap) (i : Nat) :
    Heap.renderAt h i =
      some ((h i).renderedText, Function.update h i ((h i).resolveStep)) := by
  unfold Heap.renderAt
  rw [Backtrace.render_eq]
  rfl

theorem Heap.renderAt_memo (h : Heap) (i : Nat) (t : String) (h1 : Heap)
    (hr : Heap.renderAt h i = some (t, h1)) :
    Heap.renderAt h1 i = some (t, h1) := by
  rw [Heap.renderAt_eq] at hr
  have ht : t = (h i).renderedText := by
    have := (Option.some.injEq _ _).mp hr
    exact (congrArg Prod.fst this).symm
  have hh : h1 = Function.update h i ((h i).resolveStep) := by
    have := (Option.some.injEq _ _).mp hr
    exact (congrArg Prod.snd this).symm
  subst ht hh
  rw [Heap.renderAt_eq]
  have hat : Function.update h i ((h i).resolveStep) i = (h i).resolveStep :=
    Function.update_same i ((h i).resolveStep) h
  rw [hat]
  have hrt : ((h i).resolveStep).renderedText = (h i).renderedText := by
    unfold Backtrace.renderedText
    rw [Backtrace.resolveStep_idem]
  have hupd : Function.update (Function.update h i ((h i).resolveStep)) i
      (((h i).resolveStep).resolveStep) = Function.update h i ((h i).resolveStep) := by
    rw [Backtrace.resolveStep_idem]
    exact Function.update_idem _ _ h
  rw [hrt, hupd]

theorem WrappedError.toText_spec {E : Type} (fmtE : E → String) (w : WrappedError E)
    (h : Heap) :
    WrappedError.toText fmtE w h =
      some (match w.backtrace with
        | none => fmtE w.err ++ (if w.desc = "" then "" else " (" ++ w.desc ++ ")")
        | some i => fmtE w.err ++ (if w.desc = "" then "" else " (" ++ w.desc ++ ")")
            ++ "\n\nBacktrace:\n" ++ (h i).renderedText,
        match w.backtrace with
        | none => h
        | some i => Function.update h i ((h i).resolveStep)) := by
  have hdesc : (if w.desc = "" then fmtE w.err else fmtE w.err ++ " (" ++ w.desc ++ ")")
      = fmtE w.err ++ (if w.desc = "" then "" else " (" ++ w.desc ++ ")") := by
    by_cases hd : w.desc = ""
    · simp [hd, String.append_empty]
    · simp [hd, String.append_assoc]
  have hfuse : ∀ s t : String,
      s ++ "\n" ++ "\n" ++ "Backtrace:" ++ "\n" ++ t = s ++ "\n\nBacktrace:\n" ++ t := by
    intro s t
    simp only [String.append_assoc]
    rfl
  unfold WrappedError.toText
  cases hb : w.backtrace with
  | none =>
    dsimp only
    rw [hdesc]
  | some i =>
    dsimp only
    rw [Heap.renderAt_eq]
    dsimp only
    rw [hdesc, hfuse]

theorem Backtrace.renderedText_resolveStep (b : Backtrace) :
    (b.resolveStep).renderedText = b.renderedText := by
  unfold Backtrace.renderedText
  rw [Backtrace.resolveStep_idem]

/-! The claim theorems. -/

/-- C1: the textual rendering of a wrapped error produces, in order, the
payload's own textual form, then — iff the description is non-empty — the
suffix `" (<description>)"`, then — iff a trace is present — a blank line,
a `"Backtrace:"` header line, and the trace's rendered text. -/
theorem display_rendering_contract {E : Type} (fmtE : E → String)
    (w : WrappedError E) (h : Heap) :
    ∃ h1, WrappedError.toText fmtE w h =
      some ((match w.backtrace with
        | none => fmtE w.err ++ (if w.desc = "" then "" else " (" ++ w.desc ++ ")")
        | some i => fmtE w.err ++ (if w.desc = "" then "" else " (" ++ w.desc ++ ")")
            ++ "\n\nBacktrace:\n" ++ (h i).renderedText), h1) :=
  ⟨_, WrappedError.toText_spec fmtE w h⟩

/-- C2: symbol resolution happens at most once per cache: once the cached
string is set, rendering returns it unchanged without touching the state,
and after any successful render the state is cached, so every later render
returns the byte-identical stored text. -/
theorem render_resolves_at_most_once :
    (∀ (b : Backtrace) (str : String), b.inner.string = some str →
      Backtrace.render b = some (str, b)) ∧
    (∀ (b : Backtrace) (t : String) (b1 : Backtrace),
      Backtrace.render b = some (t, b1) →
      b1.inner.string = some t ∧ Backtrace.render b1 = some (t, b1)) := by
  constructor
  · intro b str hs
    rw [Backtrace.render_eq, Backtrace.resolveStep_of_cached b str hs]
    unfold Backtrace.renderedText
    rw [Backtrace.resolveStep_of_cached b str hs, hs]
    rfl
  · intro b t b1 hr
    rw [Backtrace.render_eq] at hr
    injection hr with hr2
    injection hr2 with ht hb1
    subst ht
    subst hb1
    cases hs : (b.resolveStep).inner.string with
    | none =>
      exfalso
      have hsome := b.resolveStep_string_isSome
      rw [hs] at hsome
      simp at hsome
    | some s =>
      have ht : b.renderedText = s := by
        unfold Backtrace.renderedText
        rw [hs]
        rfl
      constructor
      · rw [ht]
      · rw [Backtrace.render_eq, Backtrace.resolveStep_idem,
          Backtrace.renderedText_resolveStep]

/-- C2 witness: rendering a concrete cache whose string is already set
returns that string and leaves the state untouched. -/
theorem render_resolves_at_most_once_witness :
    Backtrace.render btCached = some ("cached", btCached) :=
  render_resolves_at_most_once.1 btCached "cached" rfl

/-- C3 counterexample: for a concrete wrapped error with no trace, the
full rendering is exactly the one-line payload text `"E"` — there is no
hint line (nor any further line at all) explaining how to enable capture. -/
theorem display_no_trace_hint_counterexample :
    WrappedError.toText fmt0 { err := (), desc := "", backtrace := none } heap0
        = some ("E", heap0) ∧
    ("E" : String).length = 1 :=
  ⟨rfl, rfl⟩

/-- C3 amended: with no trace present, the rendering is exactly the
payload's textual form followed by the description suffix (present iff
the description is non-empty); the wrapper prints no hint and appends no
`"Backtrace:"` section. -/
theorem display_without_trace {E : Type} (fmtE : E → String) (w : WrappedError E)
    (h : Heap) (hb : w.backtrace = none) :
    WrappedError.toText fmtE w h =
      some (fmtE w.err ++ (if w.desc = "" then "" else " (" ++ w.desc ++ ")"), h) := by
  have hspec := WrappedError.toText_spec fmtE w h
  rw [hb] at hspec
  exact hspec

/-- C3 amended witness: a concrete no-trace error with description
`"ctx"` renders as exactly the payload text plus `" (ctx)"`. -/
theorem display_without_trace_witness :
    WrappedError.toText fmt0 wDesc heap0 = some ("E (ctx)", heap0) :=
  display_without_trace fmt0 wDesc heap0 rfl

/-- C5: `capture` consults the `force_backtrace` override and the
`RUST_BACKTRACE` toggle: it captures a full unresolved snapshot iff the
override is set or the toggle holds an enabling value (`"1"`, `"true"`,
`"full"`), and yields the no-trace result otherwise (in particular when
the toggle is unset or disabling). -/
theorem capture_consults_toggle (cfg : Config) (snapshot : List Nat) :
    Backtrace.capture cfg snapshot =
      if cfg.forceBacktrace
          || (cfg.rustBacktrace.getD "" == "1")
          || (cfg.rustBacktrace.getD "" == "true")
          || (cfg.rustBacktrace.getD "" == "full") then
        some { inner := { backtrace := { frames := snapshot, resolved := false },
                          string := none } }
      else none := by
  unfold Backtrace.capture
  cases cfg.forceBacktrace <;> simp

/-- C6: `capture` performs no symbol resolution and no string formatting:
every freshly captured cache has an absent cached string and an unresolved
snapshot. -/
theorem capture_is_unresolved (cfg : Config) (snapshot : List Nat) (b : Backtrace)
    (hc : Backtrace.capture cfg snapshot = some b) :
    b.inner.string = none ∧ b.inner.backtrace.resolved = false := by
  unfold Backtrace.capture at hc
  split at hc
  · cases hc
    exact ⟨rfl, rfl⟩
  · dsimp only at hc
    split at hc
    · cases hc
      exact ⟨rfl, rfl⟩
    · exact Option.noConfusion hc

/-- C6 witness: the concrete capture under `force_backtrace` stores an
absent string and an unresolved snapshot. -/
theorem capture_is_unresolved_witness :
    btSeven.inner.string = none ∧ btSeven.inner.backtrace.resolved = false :=
  capture_is_unresolved cfgForce [7] btSeven rfl

/-- C7: cloning duplicates the payload and the description and copies the
trace handle (sharing, not duplicating, the cache), and once the original
has rendered, the clone renders the byte-identical text against the same
(unchanged) shared cache. -/
theorem clone_shares_trace {E : Type} (fmtE : E → String) (w : WrappedError E)
    (h : Heap) :
    (WrappedError.clone w).err = w.err ∧
    (WrappedError.clone w).desc = w.desc ∧
    (WrappedError.clone w).backtrace = w.backtrace ∧
    ∀ (t : String) (h1 : Heap), WrappedError.toText fmtE w h = some (t, h1) →
      WrappedError.toText fmtE (WrappedError.clone w) h1 = some (t, h1) := by
  refine ⟨rfl, rfl, rfl, ?_⟩
  intro t h1 hw
  show WrappedError.toText fmtE w h1 = some (t, h1)
  rw [WrappedError.toText_spec] at hw
  rw [WrappedError.toText_spec]
  cases hb : w.backtrace with
  | none =>
    rw [hb] at hw
    dsimp only at hw ⊢
    injection hw with hw2
    injection hw2 with ht hh
    subst ht
    subst hh
    rfl
  | some i =>
    rw [hb] at hw
    dsimp only at hw ⊢
    injection hw with hw2
    injection hw2 with ht hh
    subst ht
    subst hh
    rw [Function.update_same i ((h i).resolveStep) h]
    rw [Backtrace.resolveStep_idem, Function.update_idem,
      Backtrace.renderedText_resolveStep]

/-- C7 witness: after the concrete traced error has rendered once, its
clone renders the byte-identical text against the updated shared heap. -/
theorem clone_shares_trace_witness :
    WrappedError.toText fmt0 (WrappedError.clone wTraced) heap1
      = some (tTraced, heap1) :=
  (clone_shares_trace fmt0 wTraced heap0).2.2.2 tTraced heap1 rfl

/-- C8: `new v` preserves the payload and attaches no description. -/
theorem new_preserves_payload_no_desc {E : Type} (cfg : Config)
    (snapshot : List Nat) (v : E) (h : Heap) (fresh : Nat) :
    (WrappedError.new cfg snapshot v h fresh).1.err = v ∧
    (WrappedError.new cfg snapshot v h fresh).1.desc = "" := by
  unfold WrappedError.new
  cases Backtrace.capture cfg snapshot <;> exact ⟨rfl, rfl⟩

/-- C9: the implicit conversion from a raw payload produces exactly the
wrapped error (and heap effect) that `new` produces. -/
theorem from_payload_equals_new {E : Type} (cfg : Config) (snapshot : List Nat)
    (v : E) (h : Heap) (fresh : Nat) :
    WrappedError.fromPayload cfg snapshot v h fresh
      = WrappedError.new cfg snapshot v h fresh := rfl

/-- C10: rendering never panics at the cache-access step: after the
conditional resolve branch the cached string is always present, so the
`expect` that unwraps it succeeds for every cache state. -/
theorem render_never_panics (b : Backtrace) :
    (Backtrace.render b).isSome = true := by
  rw [Backtrace.render_eq]
  rfl
